import Mathlib

/-!
# Deployment migration `migrations/2_deploy_contracts.js`

A shallow embedding of the migration script and the properties of the calls it
issues on the deployer.

The script is

    var MultiSig = artifacts.require("MultiSignatureWallet")
    var SimpleStorage = artifacts.require("SimpleStorage")

    module.exports = function(deployer, network, accounts) {
        const owners = [accounts[0], accounts[1], accounts[2], accounts[3], accounts[4]]
        deployer.deploy(SimpleStorage);
        deployer.deploy(MultiSig, owners, 3);
    };

The deployer and the artifact lookup belong to the deployment framework, so they
are parameters of the embedding: the artifact lookup is a function from names to
values, the deployer is a handler that answers a method call either with a value
or with a thrown error, and may change its own state while doing so.
-/

set_option linter.unusedVariables false

namespace Migration

/-- JavaScript values, as far as the script can see them: the missing value, numbers,
strings (account addresses are strings), arrays, and references to framework objects
such as a contract abstraction. -/
inductive Val where
  | undefined
  | num (n : Int)
  | str (s : String)
  | arr (xs : List Val)
  | ref (id : Nat)

mutual
/-- Deciding equality of two values. -/
def Val.decEq : (a b : Val) → Decidable (a = b)
  | .undefined, .undefined => isTrue rfl
  | .num m, .num n =>
    if h : m = n then isTrue (congrArg Val.num h) else isFalse (fun e => h (Val.num.inj e))
  | .str m, .str n =>
    if h : m = n then isTrue (congrArg Val.str h) else isFalse (fun e => h (Val.str.inj e))
  | .ref m, .ref n =>
    if h : m = n then isTrue (congrArg Val.ref h) else isFalse (fun e => h (Val.ref.inj e))
  | .arr xs, .arr ys =>
    match Val.decEqList xs ys with
    | isTrue h => isTrue (congrArg Val.arr h)
    | isFalse h => isFalse (fun e => h (Val.arr.inj e))
  | .undefined, .num _ | .undefined, .str _ | .undefined, .arr _ | .undefined, .ref _
  | .num _, .undefined | .num _, .str _ | .num _, .arr _ | .num _, .ref _
  | .str _, .undefined | .str _, .num _ | .str _, .arr _ | .str _, .ref _
  | .arr _, .undefined | .arr _, .num _ | .arr _, .str _ | .arr _, .ref _
  | .ref _, .undefined | .ref _, .num _ | .ref _, .str _ | .ref _, .arr _ =>
    isFalse (fun e => Val.noConfusion e)
/-- Deciding equality of two lists of values. -/
def Val.decEqList : (xs ys : List Val) → Decidable (xs = ys)
  | [], [] => isTrue rfl
  | [], _ :: _ | _ :: _, [] => isFalse (fun e => List.noConfusion e)
  | x :: xs, y :: ys =>
    match Val.decEq x y, Val.decEqList xs ys with
    | isTrue h1, isTrue h2 => isTrue (by rw [h1, h2])
    | isFalse h1, _ => isFalse (fun e => h1 (List.cons.inj e).1)
    | _, isFalse h2 => isFalse (fun e => h2 (List.cons.inj e).2)
end

instance : DecidableEq Val := Val.decEq

/-- The framework's artifact lookup, `artifacts.require(name)`. -/
structure Artifacts where
  require : String → Val

/-- A method call on the deployer object: `deployer.method(args...)`. -/
structure Call where
  method : String
  args : List Val
deriving DecidableEq

/-- The deployer handed to the migration: how it answers a method call in a given
state. The answer is the value the call returns or the error it throws, together with
the deployer's state afterwards. -/
structure Deployer (σ ε : Type) where
  handle : Call → σ → Except ε Val × σ

/-- The body of a function as the sequence of deployer calls it makes: either it has
finished with a return value, or it makes a call and goes on with what the call
returned. -/
inductive Script where
  | done (v : Val)
  | invoke (c : Call) (k : Val → Script)

/-- What a run of a script leaves behind: the calls issued on the deployer in order,
how the function ended (its return value or the error that escaped it), and the final
state of the deployer. -/
structure Run (σ ε : Type) where
  calls : List Call
  outcome : Except ε Val
  final : σ

/-- Running a script against a deployer. A call that throws ends the function with
that error: there is no handler in between. -/
def exec {σ ε : Type} (d : Deployer σ ε) : Script → σ → Run σ ε
  | .done v, s => ⟨[], .ok v, s⟩
  | .invoke c k, s =>
    match d.handle c s with
    | (.error e, s1) => ⟨[c], .error e, s1⟩
    | (.ok v, s1) =>
      let r := exec d (k v) s1
      ⟨c :: r.calls, r.outcome, r.final⟩

/-- Array element access `xs[i]`: the element, or `undefined` past the end. -/
def index (xs : List Val) (i : Nat) : Val :=
  xs.getD i .undefined

/-- Line 1: `var MultiSig = artifacts.require("MultiSignatureWallet")`. -/
def MultiSig (artifacts : Artifacts) : Val :=
  artifacts.require "MultiSignatureWallet"

/-- Line 2: `var SimpleStorage = artifacts.require("SimpleStorage")`. -/
def SimpleStorage (artifacts : Artifacts) : Val :=
  artifacts.require "SimpleStorage"

/-- Line 6: `const owners = [accounts[0], accounts[1], accounts[2], accounts[3], accounts[4]]`. -/
def owners (accounts : List Val) : List Val :=
  [index accounts 0, index accounts 1, index accounts 2, index accounts 3, index accounts 4]

/-- The statement `deployer.deploy(args...);` followed by the rest of the body; the
value the call returns is dropped. -/
def deploy (args : List Val) (rest : Script) : Script :=
  .invoke ⟨"deploy", args⟩ fun _ => rest

/-- Lines 4-12: the exported migration function. The deployer is the handler the
script is run against; `network` is received and not used. -/
def migration (artifacts : Artifacts) (network : Val) (accounts : List Val) : Script :=
  let owners := owners accounts
  deploy [SimpleStorage artifacts] <|
  deploy [MultiSig artifacts, .arr owners, .num 3] <|
  .done .undefined

/-- The first call of the migration: `deployer.deploy(SimpleStorage)`. -/
def storageCall (artifacts : Artifacts) : Call :=
  ⟨"deploy", [SimpleStorage artifacts]⟩

/-- The second call of the migration: `deployer.deploy(MultiSig, owners, 3)` for a
given owners list and threshold. -/
def walletCall (artifacts : Artifacts) (owners : List Val) (threshold : Int) : Call :=
  ⟨"deploy", [MultiSig artifacts, .arr owners, .num threshold]⟩

/-- Whether a call on the deployer returned normally. -/
def returned {ε : Type} (r : Except ε Val) : Bool :=
  match r with
  | .ok _ => true
  | .error _ => false

/-- A deployer for trying things out: its state is the number of calls it has answered;
it throws the message `"revert"` on every `deploy` call whose number of arguments is in
`failOn`, and otherwise returns the call count as a reference. -/
def testDeployer (failOn : List Nat) : Deployer Nat String :=
  ⟨fun c n =>
    if c.method = "deploy" ∧ c.args.length ∈ failOn then (.error "revert", n + 1)
    else (.ok (.ref n), n + 1)⟩

/-- An artifact lookup for trying things out: every contract name is a distinct
reference, numbered by the length of its name. -/
def testArtifacts : Artifacts :=
  ⟨fun name => .ref name.length⟩

/-- Seven account addresses for trying things out. -/
def testAccounts : List Val :=
  [.str "0xa0", .str "0xa1", .str "0xa2", .str "0xa3", .str "0xa4", .str "0xa5", .str "0xa6"]

/-! ## What a run of the migration looks like -/

theorem exec_migration_first_throws {σ ε : Type} (artifacts : Artifacts) (d : Deployer σ ε)
    (s : σ) (network : Val) (accounts : List Val) (e : ε) (s1 : σ)
    (h : d.handle (storageCall artifacts) s = (.error e, s1)) :
    exec d (migration artifacts network accounts) s = ⟨[storageCall artifacts], .error e, s1⟩ := by
  simp only [storageCall] at h
  simp [migration, deploy, exec, storageCall, h]

theorem exec_migration_second_throws {σ ε : Type} (artifacts : Artifacts) (d : Deployer σ ε)
    (s : σ) (network : Val) (accounts : List Val) (v : Val) (e : ε) (s1 s2 : σ)
    (h1 : d.handle (storageCall artifacts) s = (.ok v, s1))
    (h2 : d.handle (walletCall artifacts (owners accounts) 3) s1 = (.error e, s2)) :
    exec d (migration artifacts network accounts) s =
      ⟨[storageCall artifacts, walletCall artifacts (owners accounts) 3], .error e, s2⟩ := by
  simp only [storageCall, walletCall] at h1 h2
  simp [migration, deploy, exec, storageCall, walletCall, h1, h2]

theorem exec_migration_both_return {σ ε : Type} (artifacts : Artifacts) (d : Deployer σ ε)
    (s : σ) (network : Val) (accounts : List Val) (v w : Val) (s1 s2 : σ)
    (h1 : d.handle (storageCall artifacts) s = (.ok v, s1))
    (h2 : d.handle (walletCall artifacts (owners accounts) 3) s1 = (.ok w, s2)) :
    exec d (migration artifacts network accounts) s =
      ⟨[storageCall artifacts, walletCall artifacts (owners accounts) 3], .ok .undefined, s2⟩ := by
  simp only [storageCall, walletCall] at h1 h2
  simp [migration, deploy, exec, storageCall, walletCall, h1, h2]

/-- The run of the migration in one formula: when the first call throws, the run is that
call and its error; otherwise it is both calls, and the second call decides the outcome. -/
theorem exec_migration_eq {σ ε : Type} (artifacts : Artifacts) (d : Deployer σ ε)
    (s : σ) (network : Val) (accounts : List Val) :
    exec d (migration artifacts network accounts) s =
      if returned (d.handle (storageCall artifacts) s).1 = true then
        ⟨[storageCall artifacts, walletCall artifacts (owners accounts) 3],
          ((d.handle (walletCall artifacts (owners accounts) 3)
              (d.handle (storageCall artifacts) s).2).1).map (fun _ => Val.undefined),
          (d.handle (walletCall artifacts (owners accounts) 3)
              (d.handle (storageCall artifacts) s).2).2⟩
      else
        ⟨[storageCall artifacts], (d.handle (storageCall artifacts) s).1,
          (d.handle (storageCall artifacts) s).2⟩ := by
  rcases h1 : d.handle (storageCall artifacts) s with ⟨r1, s1⟩
  cases r1 with
  | error e =>
    rw [exec_migration_first_throws artifacts d s network accounts e s1 h1]
    simp [returned]
  | ok v =>
    rcases h2 : d.handle (walletCall artifacts (owners accounts) 3) s1 with ⟨r2, s2⟩
    cases r2 with
    | error e =>
      rw [exec_migration_second_throws artifacts d s network accounts v e s1 s2 h1 h2]
      simp [returned, h2, Except.map]
    | ok w =>
      rw [exec_migration_both_return artifacts d s network accounts v w s1 s2 h1 h2]
      simp [returned, h2, Except.map]

theorem owners_length (accounts : List Val) : (owners accounts).length = 5 := rfl

theorem index_of_lt (accounts : List Val) (i : Nat) (h : i < accounts.length) :
    index accounts i = accounts[i] := by
  simp [index, List.getD, List.getElem?_eq_getElem h]

theorem index_of_ge (accounts : List Val) (i : Nat) (h : accounts.length ≤ i) :
    index accounts i = Val.undefined := by
  simp [index, List.getD, List.getElem?_eq_none h]

theorem owners_eq_take (accounts : List Val) (h : 5 ≤ accounts.length) :
    owners accounts = accounts.take 5 := by
  match accounts, h with
  | a :: b :: c :: d :: e :: rest, _ => simp [owners, index]

theorem storageCall_ne_walletCall (artifacts : Artifacts) (os : List Val) (t : Int) :
    storageCall artifacts ≠ walletCall artifacts os t := by
  intro h
  have := congrArg (fun c => c.args.length) h
  simp [storageCall, walletCall] at this

/-- Every call of a run that has the shape of a wallet deployment, a contract followed by
an array and a number, carries the owners list of line 6 and the number 3. -/
theorem wallet_request_args {σ ε : Type} (artifacts : Artifacts) (d : Deployer σ ε)
    (s : σ) (network : Val) (accounts : List Val) (c : Call)
    (hc : c ∈ (exec d (migration artifacts network accounts) s).calls)
    (a : Val) (os : List Val) (t : Int) (hargs : c.args = [a, .arr os, .num t]) :
    os = owners accounts ∧ t = 3 := by
  rw [exec_migration_eq] at hc
  split at hc
  · simp only [List.mem_cons, List.mem_singleton, List.not_mem_nil, or_false] at hc
    rcases hc with rfl | rfl
    · simp [storageCall] at hargs
    · simp only [walletCall, List.cons.injEq, Val.arr.injEq, Val.num.injEq] at hargs
      exact ⟨hargs.2.1.symm, hargs.2.2.1.symm⟩
  · simp only [List.mem_singleton] at hc
    subst hc
    simp [storageCall] at hargs

/-! ## The claims -/

/-- C1: every call the migration issues on the deployer is a `deploy` call, there are at
most two of them, and a value it returns is `undefined`. When the deploy call for
`artifacts.require("SimpleStorage")` returns normally, it issues exactly two calls: that one,
with no constructor argument, and then the deploy call for
`artifacts.require("MultiSignatureWallet")` with exactly two constructor arguments, the
owners list and the number 3; the function then returns `undefined` exactly when this second
call returns normally. -/
theorem migration_issues_two_deploys {σ ε : Type} (artifacts : Artifacts) (d : Deployer σ ε)
    (s : σ) (network : Val) (accounts : List Val) :
    (∀ c ∈ (exec d (migration artifacts network accounts) s).calls, c.method = "deploy")
      ∧ (exec d (migration artifacts network accounts) s).calls.length ≤ 2
      ∧ (∀ v, (exec d (migration artifacts network accounts) s).outcome = .ok v →
          v = Val.undefined)
      ∧ (returned (d.handle ⟨"deploy", [artifacts.require "SimpleStorage"]⟩ s).1 = true →
          (exec d (migration artifacts network accounts) s).calls =
              [⟨"deploy", [artifacts.require "SimpleStorage"]⟩,
               ⟨"deploy", [artifacts.require "MultiSignatureWallet", .arr (owners accounts),
                 .num 3]⟩]
            ∧ (exec d (migration artifacts network accounts) s).calls.length = 2
            ∧ ((exec d (migration artifacts network accounts) s).outcome = .ok .undefined ↔
                returned (d.handle
                  ⟨"deploy", [artifacts.require "MultiSignatureWallet", .arr (owners accounts),
                    .num 3]⟩
                  (d.handle ⟨"deploy", [artifacts.require "SimpleStorage"]⟩ s).2).1 = true)) := by
  have key := exec_migration_eq artifacts d s network accounts
  simp only [storageCall, walletCall, SimpleStorage, MultiSig] at key
  rw [key]
  rcases d.handle ⟨"deploy", [artifacts.require "SimpleStorage"]⟩ s with ⟨r1, s1⟩
  cases r1 with
  | error e1 =>
    refine ⟨?_, ?_, ?_, ?_⟩ <;> simp [returned]
  | ok v1 =>
    rcases d.handle ⟨"deploy", [artifacts.require "MultiSignatureWallet",
      .arr (owners accounts), .num 3]⟩ s1 with ⟨r2, s2⟩
    cases r2 with
    | error e2 =>
      refine ⟨?_, ?_, ?_, ?_⟩ <;> simp [returned, Except.map]
    | ok v2 =>
      refine ⟨?_, ?_, ?_, ?_⟩ <;> simp [returned, Except.map]

theorem migration_issues_two_deploys_witness :
    (exec (testDeployer []) (migration testArtifacts (.str "development") testAccounts) 0).calls =
        [⟨"deploy", [testArtifacts.require "SimpleStorage"]⟩,
         ⟨"deploy", [testArtifacts.require "MultiSignatureWallet", .arr (owners testAccounts),
           .num 3]⟩]
      ∧ (exec (testDeployer []) (migration testArtifacts (.str "development") testAccounts)
          0).calls.length = 2
      ∧ ((exec (testDeployer []) (migration testArtifacts (.str "development") testAccounts)
          0).outcome = .ok .undefined ↔
            returned ((testDeployer []).handle
              ⟨"deploy", [testArtifacts.require "MultiSignatureWallet",
                .arr (owners testAccounts), .num 3]⟩
              ((testDeployer []).handle
                ⟨"deploy", [testArtifacts.require "SimpleStorage"]⟩ 0).2).1 = true) :=
  (migration_issues_two_deploys testArtifacts (testDeployer []) 0 (.str "development")
    testAccounts).2.2.2 (by decide)

/-- Against a deployer whose deploy call for SimpleStorage throws, the migration issues one
call, not two: the call list is not the two deployments, it has length 1, it holds no
MultiSignatureWallet deployment, and the function does not return. -/
theorem migration_two_deploys_counterexample :
    ¬ ((exec (testDeployer [1]) (migration testArtifacts (.str "development") testAccounts)
          0).calls =
        [⟨"deploy", [testArtifacts.require "SimpleStorage"]⟩,
         ⟨"deploy", [testArtifacts.require "MultiSignatureWallet", .arr (owners testAccounts),
           .num 3]⟩])
      ∧ (exec (testDeployer [1]) (migration testArtifacts (.str "development") testAccounts)
          0).calls.length = 1
      ∧ returned (exec (testDeployer [1]) (migration testArtifacts (.str "development")
          testAccounts) 0).outcome = false := by
  decide

/-- C2: for an accounts list with at least five entries, when the first deploy call returns,
the second call of the run is the wallet deployment with an owners list of length 5 whose
i-th entry is `accounts[i]` for every i below 5, that is the first five accounts in their
order, and with threshold 3. -/
theorem wallet_owners_first_five {σ ε : Type} (artifacts : Artifacts) (d : Deployer σ ε)
    (s : σ) (network : Val) (accounts : List Val)
    (h5 : 5 ≤ accounts.length)
    (h1 : returned (d.handle (storageCall artifacts) s).1 = true) :
    (exec d (migration artifacts network accounts) s).calls[1]? =
        some ⟨"deploy", [MultiSig artifacts, .arr (owners accounts), .num 3]⟩
      ∧ (owners accounts).length = 5
      ∧ (∀ i, i < 5 → (owners accounts)[i]? = accounts[i]?)
      ∧ owners accounts = accounts.take 5 := by
  rw [exec_migration_eq, if_pos h1]
  refine ⟨rfl, rfl, ?_, owners_eq_take accounts h5⟩
  intro i hi
  rw [owners_eq_take accounts h5, List.getElem?_take_of_lt hi]

theorem wallet_owners_first_five_witness :
    (exec (testDeployer []) (migration testArtifacts (.str "ropsten") testAccounts) 0).calls[1]? =
        some ⟨"deploy", [MultiSig testArtifacts, .arr (owners testAccounts), .num 3]⟩
      ∧ (owners testAccounts).length = 5
      ∧ (∀ i, i < 5 → (owners testAccounts)[i]? = testAccounts[i]?)
      ∧ owners testAccounts = testAccounts.take 5 :=
  wallet_owners_first_five testArtifacts (testDeployer []) 0 (.str "ropsten") testAccounts
    (by decide) (by decide)

/-- C3: for every deployer and input the first call issued is the deploy call for
`artifacts.require("SimpleStorage")`, the calls issued are an initial part of that call
followed by the deploy call for `artifacts.require("MultiSignatureWallet")` with the owners
list and 3, and they are never these two in the reverse order. When the first call returns
normally the calls are exactly these two in this order, the second made on the deployer as
the first left it; when the first call throws it is the only call. -/
theorem migration_deploy_order {σ ε : Type} (artifacts : Artifacts) (d : Deployer σ ε)
    (s : σ) (network : Val) (accounts : List Val) :
    (exec d (migration artifacts network accounts) s).calls.head? =
        some ⟨"deploy", [artifacts.require "SimpleStorage"]⟩
      ∧ (exec d (migration artifacts network accounts) s).calls <+:
          [⟨"deploy", [artifacts.require "SimpleStorage"]⟩,
           ⟨"deploy", [artifacts.require "MultiSignatureWallet", .arr (owners accounts),
             .num 3]⟩]
      ∧ (exec d (migration artifacts network accounts) s).calls ≠
          [⟨"deploy", [artifacts.require "MultiSignatureWallet", .arr (owners accounts),
             .num 3]⟩,
           ⟨"deploy", [artifacts.require "SimpleStorage"]⟩]
      ∧ (returned (d.handle ⟨"deploy", [artifacts.require "SimpleStorage"]⟩ s).1 = true →
          (exec d (migration artifacts network accounts) s).calls =
              [⟨"deploy", [artifacts.require "SimpleStorage"]⟩,
               ⟨"deploy", [artifacts.require "MultiSignatureWallet", .arr (owners accounts),
                 .num 3]⟩]
            ∧ (exec d (migration artifacts network accounts) s).final =
                (d.handle
                  ⟨"deploy", [artifacts.require "MultiSignatureWallet", .arr (owners accounts),
                    .num 3]⟩
                  (d.handle ⟨"deploy", [artifacts.require "SimpleStorage"]⟩ s).2).2)
      ∧ (returned (d.handle ⟨"deploy", [artifacts.require "SimpleStorage"]⟩ s).1 = false →
          (exec d (migration artifacts network accounts) s).calls =
            [⟨"deploy", [artifacts.require "SimpleStorage"]⟩]) := by
  have key := exec_migration_eq artifacts d s network accounts
  simp only [storageCall, walletCall, SimpleStorage, MultiSig] at key
  rw [key]
  rcases d.handle ⟨"deploy", [artifacts.require "SimpleStorage"]⟩ s with ⟨r1, s1⟩
  cases r1 with
  | error e1 =>
    refine ⟨?_, ?_, ?_, ?_, ?_⟩ <;> simp [returned]
  | ok v1 =>
    refine ⟨?_, ?_, ?_, ?_, ?_⟩ <;> simp [returned]

theorem migration_deploy_order_witness :
    (exec (testDeployer [3]) (migration testArtifacts (.str "live") testAccounts) 7).calls =
        [⟨"deploy", [testArtifacts.require "SimpleStorage"]⟩,
         ⟨"deploy", [testArtifacts.require "MultiSignatureWallet", .arr (owners testAccounts),
           .num 3]⟩]
      ∧ (exec (testDeployer [3]) (migration testArtifacts (.str "live") testAccounts) 7).final =
          ((testDeployer [3]).handle
            ⟨"deploy", [testArtifacts.require "MultiSignatureWallet", .arr (owners testAccounts),
              .num 3]⟩
            ((testDeployer [3]).handle
              ⟨"deploy", [testArtifacts.require "SimpleStorage"]⟩ 7).2).2 :=
  (migration_deploy_order testArtifacts (testDeployer [3]) 7 (.str "live")
    testAccounts).2.2.2.1 (by decide)

/-- Against a deployer whose deploy call for SimpleStorage throws, the recorded call
sequence is not the two deployments: it is the SimpleStorage deployment alone. -/
theorem migration_deploy_order_counterexample :
    (exec (testDeployer [1]) (migration testArtifacts (.str "live") testAccounts) 7).calls ≠
        [⟨"deploy", [testArtifacts.require "SimpleStorage"]⟩,
         ⟨"deploy", [testArtifacts.require "MultiSignatureWallet", .arr (owners testAccounts),
           .num 3]⟩]
      ∧ (exec (testDeployer [1]) (migration testArtifacts (.str "live") testAccounts) 7).calls =
        [⟨"deploy", [testArtifacts.require "SimpleStorage"]⟩] := by
  decide

/-- C4: with a deployer whose calls may throw, the migration ends in an error exactly when
one of the deploy calls it issued threw, and then with that very error; it returns normally
exactly when both calls returned; when the SimpleStorage deployment throws, it is the only
call issued and the deployer stays as that call left it; no call is issued twice and the
calls issued are an initial part of the two deployments. -/
theorem migration_no_error_handling {σ ε : Type} (artifacts : Artifacts) (d : Deployer σ ε)
    (s : σ) (network : Val) (accounts : List Val) :
    (∀ e, (exec d (migration artifacts network accounts) s).outcome = .error e ↔
        ((d.handle (storageCall artifacts) s).1 = .error e ∨
          (returned (d.handle (storageCall artifacts) s).1 = true ∧
            (d.handle (walletCall artifacts (owners accounts) 3)
              (d.handle (storageCall artifacts) s).2).1 = .error e)))
      ∧ (returned (exec d (migration artifacts network accounts) s).outcome = true ↔
        (returned (d.handle (storageCall artifacts) s).1 = true ∧
          returned (d.handle (walletCall artifacts (owners accounts) 3)
            (d.handle (storageCall artifacts) s).2).1 = true))
      ∧ (returned (d.handle (storageCall artifacts) s).1 = false →
        (exec d (migration artifacts network accounts) s).calls = [storageCall artifacts] ∧
          (exec d (migration artifacts network accounts) s).final =
            (d.handle (storageCall artifacts) s).2)
      ∧ (returned (d.handle (storageCall artifacts) s).1 = true →
        (exec d (migration artifacts network accounts) s).calls =
            [storageCall artifacts, walletCall artifacts (owners accounts) 3] ∧
          (exec d (migration artifacts network accounts) s).final =
            (d.handle (walletCall artifacts (owners accounts) 3)
              (d.handle (storageCall artifacts) s).2).2)
      ∧ (exec d (migration artifacts network accounts) s).calls <+:
          [storageCall artifacts, walletCall artifacts (owners accounts) 3]
      ∧ (exec d (migration artifacts network accounts) s).calls.Nodup := by
  have hne := storageCall_ne_walletCall artifacts (owners accounts) 3
  rw [exec_migration_eq]
  rcases d.handle (storageCall artifacts) s with ⟨r1, s1⟩
  cases r1 with
  | error e1 =>
    refine ⟨?_, ?_, ?_, ?_, ?_, ?_⟩ <;> simp [returned]
  | ok v1 =>
    rcases d.handle (walletCall artifacts (owners accounts) 3) s1 with ⟨r2, s2⟩
    cases r2 with
    | error e2 =>
      refine ⟨?_, ?_, ?_, ?_, ?_, ?_⟩ <;> simp [returned, Except.map, hne]
    | ok v2 =>
      refine ⟨?_, ?_, ?_, ?_, ?_, ?_⟩ <;> simp [returned, Except.map, hne]

theorem migration_no_error_handling_witness :
    (exec (testDeployer [1]) (migration testArtifacts (.str "development") testAccounts) 0).calls =
        [storageCall testArtifacts]
      ∧ (exec (testDeployer [1]) (migration testArtifacts (.str "development") testAccounts)
          0).final = ((testDeployer [1]).handle (storageCall testArtifacts) 0).2 :=
  (migration_no_error_handling testArtifacts (testDeployer [1]) 0 (.str "development")
    testAccounts).2.2.1 (by decide)

/-- C5: for every accounts list, also one with fewer than five entries, the owners list has
exactly five entries, entry i being `accounts[i]` when i is below the length of accounts
and `undefined` otherwise; when the first deploy call returns, both deploy calls are issued,
the second with that owners list and threshold 3, and an error of the run can only be the
error thrown by the second call. -/
theorem owners_fixed_size {σ ε : Type} (artifacts : Artifacts) (d : Deployer σ ε)
    (s : σ) (network : Val) (accounts : List Val)
    (h1 : returned (d.handle (storageCall artifacts) s).1 = true) :
    (owners accounts).length = 5
      ∧ (∀ i, i < 5 → (owners accounts)[i]? =
          some (if h : i < accounts.length then accounts[i] else Val.undefined))
      ∧ (exec d (migration artifacts network accounts) s).calls =
          [⟨"deploy", [SimpleStorage artifacts]⟩,
           ⟨"deploy", [MultiSig artifacts, .arr (owners accounts), .num 3]⟩]
      ∧ (∀ e, (exec d (migration artifacts network accounts) s).outcome = .error e →
          (d.handle (walletCall artifacts (owners accounts) 3)
            (d.handle (storageCall artifacts) s).2).1 = .error e) := by
  rw [exec_migration_eq, if_pos h1]
  refine ⟨rfl, ?_, rfl, ?_⟩
  · intro i hi
    have key : ∀ j, index accounts j =
        (if h : j < accounts.length then accounts[j] else Val.undefined) := by
      intro j
      by_cases h : j < accounts.length
      · rw [dif_pos h, index_of_lt accounts j h]
      · rw [dif_neg h, index_of_ge accounts j (Nat.le_of_not_lt h)]
    interval_cases i <;> simp only [owners, ← key] <;> rfl
  · intro e
    cases (d.handle (walletCall artifacts (owners accounts) 3)
      (d.handle (storageCall artifacts) s).2).1 <;> simp [Except.map]

theorem owners_fixed_size_witness :
    (owners [.str "0xb0", .str "0xb1"]).length = 5
      ∧ (∀ i, i < 5 → (owners [.str "0xb0", .str "0xb1"])[i]? =
          some (if h : i < [Val.str "0xb0", Val.str "0xb1"].length
            then [Val.str "0xb0", Val.str "0xb1"][i] else Val.undefined))
      ∧ (exec (testDeployer []) (migration testArtifacts (.str "test")
          [.str "0xb0", .str "0xb1"]) 0).calls =
          [⟨"deploy", [SimpleStorage testArtifacts]⟩,
           ⟨"deploy", [MultiSig testArtifacts, .arr (owners [.str "0xb0", .str "0xb1"]), .num 3]⟩]
      ∧ (∀ e, (exec (testDeployer []) (migration testArtifacts (.str "test")
          [.str "0xb0", .str "0xb1"]) 0).outcome = .error e →
          ((testDeployer []).handle (walletCall testArtifacts (owners [.str "0xb0", .str "0xb1"]) 3)
            ((testDeployer []).handle (storageCall testArtifacts) 0).2).1 = .error e) :=
  owners_fixed_size testArtifacts (testDeployer []) 0 (.str "test") [.str "0xb0", .str "0xb1"]
    (by decide)

/-- C6: every wallet deployment the migration issues, whatever the deployer and the
accounts, asks for a threshold that is at least 1 and at most the number of owners passed
with it: the threshold is 3 and the owners list has 5 entries. -/
theorem wallet_threshold_valid {σ ε : Type} (artifacts : Artifacts) (d : Deployer σ ε)
    (s : σ) (network : Val) (accounts : List Val) (c : Call)
    (hc : c ∈ (exec d (migration artifacts network accounts) s).calls)
    (a : Val) (os : List Val) (t : Int) (hargs : c.args = [a, .arr os, .num t]) :
    1 ≤ t ∧ t ≤ (os.length : Int) ∧ t = 3 ∧ os.length = 5 ∧ os = owners accounts := by
  obtain ⟨hos, ht⟩ := wallet_request_args artifacts d s network accounts c hc a os t hargs
  subst hos ht
  refine ⟨by decide, ?_, rfl, rfl, rfl⟩
  rw [owners_length]
  decide

theorem wallet_threshold_valid_witness :
    (1 : Int) ≤ 3 ∧ (3 : Int) ≤ ((owners []).length : Int) ∧ (3 : Int) = 3
      ∧ (owners []).length = 5 ∧ owners [] = owners [] :=
  wallet_threshold_valid testArtifacts (testDeployer []) 0 (.str "development") []
    (walletCall testArtifacts (owners []) 3) (by decide)
    (MultiSig testArtifacts) (owners []) 3 rfl

/-- C7: two runs whose accounts agree at the indices 0 to 4 are the same script, whatever
the two network names and whatever the accounts from index 5 on, so against every deployer
and from every deployer state they issue the same calls with the same arguments and end
the same way. -/
theorem migration_depends_on_first_five (artifacts : Artifacts) (network1 network2 : Val)
    (accounts1 accounts2 : List Val)
    (h : ∀ i, i < 5 → index accounts1 i = index accounts2 i) :
    migration artifacts network1 accounts1 = migration artifacts network2 accounts2
      ∧ ∀ (σ ε : Type) (d : Deployer σ ε) (s : σ),
          exec d (migration artifacts network1 accounts1) s =
            exec d (migration artifacts network2 accounts2) s := by
  have ho : owners accounts1 = owners accounts2 := by
    simp only [owners, h 0 (by decide), h 1 (by decide), h 2 (by decide), h 3 (by decide),
      h 4 (by decide)]
  have hm : migration artifacts network1 accounts1 = migration artifacts network2 accounts2 := by
    simp only [migration, ho]
  exact ⟨hm, fun σ ε d s => by rw [hm]⟩

theorem migration_depends_on_first_five_witness :
    migration testArtifacts (.str "development") testAccounts =
        migration testArtifacts (.str "mainnet") (testAccounts.take 5 ++ [.str "0xff"])
      ∧ ∀ (σ ε : Type) (d : Deployer σ ε) (s : σ),
          exec d (migration testArtifacts (.str "development") testAccounts) s =
            exec d (migration testArtifacts (.str "mainnet")
              (testAccounts.take 5 ++ [.str "0xff"])) s :=
  migration_depends_on_first_five testArtifacts (.str "development") (.str "mainnet")
    testAccounts (testAccounts.take 5 ++ [.str "0xff"]) (by decide)

/-- C8: for an accounts list with at least five entries the owners list is the first five
accounts, so it has no duplicate exactly when `accounts[0]` to `accounts[4]` are pairwise
distinct, and exactly when the first five accounts have no duplicate. -/
theorem owners_nodup_iff (accounts : List Val) (h5 : 5 ≤ accounts.length) :
    ((owners accounts).Nodup ↔
        ∀ i j, i < 5 → j < 5 → i ≠ j → index accounts i ≠ index accounts j)
      ∧ ((owners accounts).Nodup ↔ (accounts.take 5).Nodup)
      ∧ owners accounts = accounts.take 5 := by
  refine ⟨?_, by rw [owners_eq_take accounts h5], owners_eq_take accounts h5⟩
  constructor
  · intro hn i j hi hj hij
    simp only [owners, List.nodup_cons, List.mem_cons, List.mem_singleton, List.not_mem_nil,
      not_or, List.nodup_nil, not_false_eq_true, and_true] at hn
    interval_cases i <;> interval_cases j <;> first
      | exact absurd rfl hij
      | tauto
  · intro hp
    have p01 := hp 0 1 (by decide) (by decide) (by decide)
    have p02 := hp 0 2 (by decide) (by decide) (by decide)
    have p03 := hp 0 3 (by decide) (by decide) (by decide)
    have p04 := hp 0 4 (by decide) (by decide) (by decide)
    have p12 := hp 1 2 (by decide) (by decide) (by decide)
    have p13 := hp 1 3 (by decide) (by decide) (by decide)
    have p14 := hp 1 4 (by decide) (by decide) (by decide)
    have p23 := hp 2 3 (by decide) (by decide) (by decide)
    have p24 := hp 2 4 (by decide) (by decide) (by decide)
    have p34 := hp 3 4 (by decide) (by decide) (by decide)
    simp only [owners, List.nodup_cons, List.mem_cons, List.mem_singleton, List.not_mem_nil,
      not_or, List.nodup_nil, not_false_eq_true, and_true, or_false]
    tauto

theorem owners_nodup_iff_witness :
    ((owners testAccounts).Nodup ↔
        ∀ i j, i < 5 → j < 5 → i ≠ j → index testAccounts i ≠ index testAccounts j)
      ∧ ((owners testAccounts).Nodup ↔ (testAccounts.take 5).Nodup)
      ∧ owners testAccounts = testAccounts.take 5 :=
  owners_nodup_iff testAccounts (by decide)

end Migration
